import Mathlib

/-!
Verification development for the MyRenderingPipeline repository.

The repository's runtime logic lives in two AWS Lambda handlers:
`cdk_app/lambda/handler.py` (functions `handler`, `do_stage_logic`,
`start_job_logic`, `stop_job_logic`) and `cdk_app/lambda/logs/handler.py`
(function `handler`, which doubles as the DynamoDB-stream "Callback
Listener").  The CDK stack (`my_rendering_pipeline_stack.py`) wires a
Step Functions state machine `Recon -> UpdateToken -> WaitForReconCallback
-> Train` over these handlers.

This file shallowly embeds that logic:
 * the DynamoDB status table becomes an association list of job records;
 * `do_stage_logic` becomes a pure function from its event payload, the
   environment, the fresh uuid it may draw, and the outcome of
   `sagemaker.create_training_job`, to the new table, the launch call it
   issued, and its response;
 * `stop_job_logic` becomes a pure function from the request body, the
   outcome of `sagemaker.stop_training_job`, and the table;
 * the stream branch of the logs handler becomes a fold over stream
   records, acting on a model of the external Step Functions task-token
   service.
-/

namespace RenderingPipeline

/-- A DynamoDB item of the status table.  The fields are exactly the
attributes the repository's handlers read or write: `do_stage_logic`
writes `jobId`/`stage`/`status`/`sageMakerJobName`/`outputBucket`,
`stop_job_logic` reads `sageMakerJobName` and writes `status`, and the
stream handler reads `jobId`/`status`/`taskToken`.  `none` models an
absent attribute. -/
structure JobItem where
  stage : Option String := none
  status : Option String := none
  sageMakerJobName : Option String := none
  outputBucket : Option String := none
  taskToken : Option String := none
  deriving DecidableEq, Repr

/-- The DynamoDB status table, keyed by `jobId`. -/
abbrev Table := List (String × JobItem)

/-- `table.get_item(Key={"jobId": key})`. -/
def tableGet : Table → String → Option JobItem
  | [], _ => none
  | (k, v) :: rest, key => if k = key then some v else tableGet rest key

/-- `table.put_item` / `table.update_item` at `key`: replaces the whole
item when the key exists, inserts it otherwise. -/
def tablePut : Table → String → JobItem → Table
  | [], key, item => [(key, item)]
  | (k, v) :: rest, key, item =>
      if k = key then (key, item) :: rest else (k, v) :: tablePut rest key item

/-- Python truthiness of an optional string: `None` and `""` are falsy
(`if not job_id`, `if not training_job_name`, `and task_token`). -/
def pyTruthy : Option String → Bool
  | none => false
  | some s => s != ""

/-- The recon bucket name hard-coded in `do_stage_logic`. -/
def reconBucketName : String := "gabe-recon-renderingpipeline-bucket"

/-- The ECR image URI computed in `do_stage_logic` from the hard-coded
account id and region. -/
def ecrUriFor (containerName : String) : String :=
  "975050048887.dkr.ecr.us-west-2.amazonaws.com/" ++ containerName ++ ":latest"

/-- The `input` payload of a stage-dispatch event, with the keys
`do_stage_logic` reads (`input_payload.get(...)`).  `none` models an
absent key. -/
structure StagePayload where
  jobId : Option String := none
  containerName : Option String := none
  trainCommand : Option String := none
  s3ArchiveName : Option String := none
  deriving DecidableEq, Repr

/-- The `sagemaker.create_training_job` call issued by `do_stage_logic`. -/
structure LaunchCall where
  trainingJobName : String
  image : String
  inputS3Uri : String
  outputS3Uri : String
  deriving DecidableEq, Repr

/-- The JSON body `do_stage_logic` returns on success. -/
structure StageResponse where
  message : String
  jobId : String
  containerUsed : String
  inputData : String
  trainingJobName : String
  deriving DecidableEq, Repr

/-- Outcome of `do_stage_logic`: either the 200 response, or the
uncaught exception from `sagemaker.create_training_job` (there is no
try/except around it in the source). -/
inductive StageOutcome where
  | ok (resp : StageResponse)
  | raised (msg : String)
  deriving DecidableEq, Repr

/-- `do_stage_logic(event, action)` from `cdk_app/lambda/handler.py`.

Inputs beyond the event payload and action string: `outputBucketEnv` is
`os.environ["OUTPUT_BUCKET"]`; `freshId` is the `str(uuid.uuid4())`
default drawn when the payload has no `jobId`; `launchOk` tells whether
`sagemaker.create_training_job` succeeds (`false` models a LaunchError).

Returns the table after the handler, the launch call actually issued
(none when the launch raised before any job was created), and the
outcome.  Note the `put_item` replaces the whole item unconditionally. -/
def do_stage_logic (outputBucketEnv : String) (payload : StagePayload)
    (action : String) (freshId : String) (launchOk : Bool) (table : Table) :
    Table × Option LaunchCall × StageOutcome :=
  let jobId := payload.jobId.getD freshId
  let containerName := payload.containerName.getD "nerfstudio"
  let ecrUri := ecrUriFor containerName
  let outputS3Uri :=
    if action = "RECON" then "s3://" ++ reconBucketName ++ "/recon-outputs/"
    else "s3://" ++ outputBucketEnv ++ "/models/"
  let jobPrefix := if action = "RECON" then "recon" else "train"
  let inputS3Uri :=
    if action = "RECON" then
      "s3://user-submissions/" ++ payload.s3ArchiveName.getD "my-training-data"
    else
      "s3://" ++ reconBucketName ++ "/recon-outputs/" ++ (jobId ++ "-RECON-output")
  let trainingJobName := jobPrefix ++ "-job-" ++ jobId
  if launchOk then
    let launch : LaunchCall :=
      { trainingJobName := trainingJobName, image := ecrUri,
        inputS3Uri := inputS3Uri, outputS3Uri := outputS3Uri }
    let newItem : JobItem :=
      { stage := some action, status := some "IN_PROGRESS",
        sageMakerJobName := some trainingJobName,
        outputBucket := some outputS3Uri, taskToken := none }
    let resp : StageResponse :=
      { message := action ++ " stage job started", jobId := jobId,
        containerUsed := ecrUri, inputData := inputS3Uri,
        trainingJobName := trainingJobName }
    (tablePut table jobId newItem, some launch, StageOutcome.ok resp)
  else
    (table, none, StageOutcome.raised "LaunchError")

/-- The result `stop_job_logic` reports to its caller. -/
inductive StopResult where
  /-- 400 `"No jobId provided"`. -/
  | noJobId
  /-- 400 `"No matching job found in DynamoDB"`. -/
  | notFound
  /-- 500 with the stringified exception from `stop_training_job`. -/
  | stopFailed (msg : String)
  /-- 200 `"Stopping job"`. -/
  | stopping
  deriving DecidableEq, Repr

/-- `stop_job_logic(event)` from `cdk_app/lambda/handler.py`.

`bodyJobId` is `body.get("jobId", None)`; `stopOk` tells whether
`sagemaker.stop_training_job` succeeds.  Returns the table after the
handler, the list of job names passed to `stop_training_job`, and the
result.  On a successful stop the handler's `update_item` sets
`status := "STOPPING"` (and nothing else) with no ConditionExpression;
on a failed stop it returns 500 before reaching the update. -/
def stop_job_logic (bodyJobId : Option String) (stopOk : Bool) (table : Table) :
    Table × List String × StopResult :=
  if pyTruthy bodyJobId then
    let jobId := bodyJobId.getD ""
    match tableGet table jobId with
    | none => (table, [], StopResult.notFound)
    | some item =>
        match item.sageMakerJobName with
        | none => (table, [], StopResult.notFound)
        | some name =>
            if name = "" then (table, [], StopResult.notFound)
            else if stopOk then
              (tablePut table jobId { item with status := some "STOPPING" },
               [name], StopResult.stopping)
            else
              (table, [name], StopResult.stopFailed "StopError")
  else (table, [], StopResult.noJobId)

/-- The `NewImage` of a DynamoDB stream record, with the attributes the
logs handler reads (`jobId`, `status`, `taskToken`). -/
structure StreamImage where
  jobId : Option String := none
  status : Option String := none
  taskToken : Option String := none
  deriving DecidableEq, Repr

/-- A DynamoDB stream record as seen by the logs handler. -/
structure StreamRecord where
  eventName : String
  newImage : StreamImage
  deriving DecidableEq, Repr

/-- State of the external Step Functions task-token service.
`pending` holds the task tokens of executions parked in the
`WaitForReconCallback` state (`IntegrationPattern.WAIT_FOR_TASK_TOKEN`);
`resumed` lists, in order, the tokens whose `send_task_success`
succeeded — for each of these the state machine proceeds to its next
state, `RunTrainStage`, exactly once. -/
structure SFState where
  pending : List String
  resumed : List String
  deriving DecidableEq, Repr

/-- Modelled from the spec: the external workflow engine's task-token
wait (the repository's `WaitForReconCallback` state) — the continuation
token is "single-use — once consumed by a successful resume ... it must
never trigger a transition again".  `send_task_success` succeeds exactly
when the token is still pending, consuming it; on a token that is absent
or already consumed it raises, which the logs handler catches. -/
def send_task_success (sf : SFState) (token : String) : Except String SFState :=
  if token ∈ sf.pending then
    Except.ok { pending := sf.pending.erase token, resumed := sf.resumed ++ [token] }
  else Except.error "TaskDoesNotExist"

/-- The guard of the logs handler's stream branch:
`record["eventName"] in ["INSERT", "MODIFY"]` and then
`status == "COMPLETED_RECON" and task_token`. -/
def resumeGuard (r : StreamRecord) : Bool :=
  (r.eventName == "INSERT" || r.eventName == "MODIFY")
    && (r.newImage.status == some "COMPLETED_RECON")
    && pyTruthy r.newImage.taskToken

/-- Processing of one stream record by the logs handler
(`cdk_app/lambda/logs/handler.py`): when the guard holds it calls
`stepfunctions.send_task_success` with the record's token, catching any
exception (`except Exception as e: print(...)`). -/
def processRecord (sf : SFState) (r : StreamRecord) : SFState :=
  if resumeGuard r then
    match r.newImage.taskToken with
    | some t =>
        match send_task_success sf t with
        | Except.ok sf' => sf'
        | Except.error _ => sf
    | none => sf
  else sf

/-- The stream branch of the logs handler: `for record in event["Records"]`. -/
def logsStreamHandler (sf : SFState) (rs : List StreamRecord) : SFState :=
  rs.foldl processRecord sf

/-- Modelled from the spec: the external completion write — "completion
... is learned only through an external write to the Job Store's
`status`/`outputRef` fields".  The compute backend (not repository code)
marks the recon stage complete by setting `status := "COMPLETED_RECON"`
on the job's item; the other attributes, in particular `taskToken`, are
untouched. -/
def externalCompletionWrite (table : Table) (jobId : String) : Table :=
  match tableGet table jobId with
  | some item => tablePut table jobId { item with status := some "COMPLETED_RECON" }
  | none => table

/-- The stream `NewImage` of a table item, as delivered to the logs
handler after a write to that item. -/
def imageOfItem (jobId : String) (item : JobItem) : StreamImage :=
  { jobId := some jobId, status := item.status, taskToken := item.taskToken }

/-- The stop-then-resume race trace: `stop_job_logic` commits first
(SageMaker stop succeeds), then the external completion write lands,
then the stream delivers the resulting image to the logs handler.
Returns the final table and the final Step Functions state. -/
def stopThenResumeTrace (table : Table) (jobId : String) (sf : SFState) :
    Table × SFState :=
  let table1 := (stop_job_logic (some jobId) true table).1
  let table2 := externalCompletionWrite table1 jobId
  let img :=
    match tableGet table2 jobId with
    | some item => imageOfItem jobId item
    | none => { : StreamImage }
  (table2, processRecord sf { eventName := "MODIFY", newImage := img })

/-- The `jobId` the stage handler reports in its 200 response, when it
did not raise. -/
def StageOutcome.respJobId : StageOutcome → Option String
  | StageOutcome.ok r => some r.jobId
  | StageOutcome.raised _ => none

/-- A job record mid-recon, with the task token an external write
stored for the `WaitForReconCallback` state (as the `UpdateTaskToken`
step was meant to do).  Used as the starting point of race traces. -/
def reconRunningItem : JobItem :=
  { stage := some "RECON", status := some "IN_PROGRESS",
    sageMakerJobName := some "recon-job-j1",
    outputBucket := some "s3://gabe-recon-renderingpipeline-bucket/recon-outputs/",
    taskToken := some "tok1" }

/-- A prior record whose status is the non-terminal "STOPPING". -/
def stoppingPriorItem : JobItem :=
  { stage := some "RECON", status := some "STOPPING",
    sageMakerJobName := some "recon-job-j1" }

/-- A prior record whose status is the terminal "COMPLETED". -/
def completedPriorItem : JobItem :=
  { stage := some "TRAIN", status := some "COMPLETED",
    sageMakerJobName := some "train-job-j1" }

/-- A record already in the terminal "STOPPED" state. -/
def stoppedTerminalItem : JobItem :=
  { stage := some "TRAIN", status := some "STOPPED",
    sageMakerJobName := some "train-job-j1" }

/-- A record satisfying the spec's token biconditional: status
`AWAITING_CALLBACK` together with a stored token. -/
def awaitingCallbackItem : JobItem :=
  { stage := some "RECON", status := some "AWAITING_CALLBACK",
    sageMakerJobName := some "recon-job-j1", taskToken := some "tok1" }

/-- The spec's biconditional on one record: a (truthy) continuation
token is present iff the status is `AWAITING_CALLBACK`. -/
def tokenIffAwaitingCallback (item : JobItem) : Bool :=
  pyTruthy item.taskToken == (item.status == some "AWAITING_CALLBACK")

/-- The record written to the status table by a successful
`do_stage_logic` run (the `put_item` argument). -/
def stageWrittenItem (outputBucketEnv : String) (p : StagePayload)
    (action freshId : String) : JobItem :=
  { stage := some action, status := some "IN_PROGRESS",
    sageMakerJobName :=
      some ((if action = "RECON" then "recon" else "train") ++ "-job-" ++
        (p.jobId.getD freshId)),
    outputBucket :=
      some (if action = "RECON" then "s3://" ++ reconBucketName ++ "/recon-outputs/"
            else "s3://" ++ outputBucketEnv ++ "/models/"),
    taskToken := none }

/-- A stream record announcing recon completion for job `j1`, carrying
token `t` — what the stream delivers after an external completion
write. -/
def reconDoneRecord (t : String) : StreamRecord :=
  { eventName := "MODIFY",
    newImage := { jobId := some "j1", status := some "COMPLETED_RECON",
                  taskToken := some t } }

/-- Well-formedness of the Step Functions task-token state: pending
tokens are distinct, consumed tokens are distinct, and no token is both
pending and already consumed. -/
abbrev WFSF (sf : SFState) : Prop :=
  sf.pending.Nodup ∧ sf.resumed.Nodup ∧ ∀ t ∈ sf.pending, t ∉ sf.resumed

theorem tableGet_tablePut_self (t : Table) (k : String) (v : JobItem) :
    tableGet (tablePut t k v) k = some v := by
  induction t with
  | nil => simp [tablePut, tableGet]
  | cons hd tl ih =>
      obtain ⟨k1, v1⟩ := hd
      by_cases h : k1 = k
      · simp [tablePut, tableGet, h]
      · simp [tablePut, tableGet, h, ih]

/-- C7: the claim says a failed `create_training_job` leaves the job
record with status FAILED and a populated `errorDetail`.  In the source
the call is not wrapped in any try/except: the exception propagates out
of `do_stage_logic`, nothing is written to the table at all, so at the
concrete failing input the table still has no record for the job —
there is no FAILED status and no `errorDetail` attribute anywhere. -/
theorem c7_counterexample_launch_error_writes_nothing :
    (do_stage_logic "out-bucket" { jobId := some "j1" } "RECON" "f" false []).1 = []
    ∧ (do_stage_logic "out-bucket" { jobId := some "j1" } "RECON" "f" false []).2.2 =
        StageOutcome.raised "LaunchError"
    ∧ tableGet (do_stage_logic "out-bucket" { jobId := some "j1" } "RECON" "f" false []).1
        "j1" = none := by
  decide

/-- C7 (amended): when the Stage Executor launch fails, `do_stage_logic`
propagates the exception: the table is unchanged (no FAILED status, no
`errorDetail` is ever written — the attribute does not exist in the
code), no training job is created, and nothing is retried. -/
theorem c7_amended_launch_error_propagates (outBucket : String) (p : StagePayload)
    (action freshId : String) (table : Table) :
    do_stage_logic outBucket p action freshId false table =
      (table, none, StageOutcome.raised "LaunchError") := by
  simp [do_stage_logic]

/-- C9: any `action` other than `"RECON"` — including the workflow's own
`"UPDATE_TOKEN"` dispatch — falls into `do_stage_logic`'s else-branches:
it launches a SageMaker job named `train-job-{jobId}` whose input is the
recon bucket's `{jobId}-RECON-output` prefix, and writes a record whose
`stage` attribute is the action string itself. -/
theorem c9_nonrecon_action_treated_as_train (outBucket : String) (p : StagePayload)
    (action freshId : String) (table : Table) (h : action ≠ "RECON") :
    (do_stage_logic outBucket p action freshId true table).2.1 =
      some { trainingJobName := "train-job-" ++ (p.jobId.getD freshId),
             image := ecrUriFor (p.containerName.getD "nerfstudio"),
             inputS3Uri := "s3://" ++ reconBucketName ++ "/recon-outputs/" ++
               ((p.jobId.getD freshId) ++ "-RECON-output"),
             outputS3Uri := "s3://" ++ outBucket ++ "/models/" }
    ∧ tableGet (do_stage_logic outBucket p action freshId true table).1
        (p.jobId.getD freshId) =
      some { stage := some action, status := some "IN_PROGRESS",
             sageMakerJobName := some ("train-job-" ++ (p.jobId.getD freshId)),
             outputBucket := some ("s3://" ++ outBucket ++ "/models/"),
             taskToken := none } := by
  refine ⟨?_, ?_⟩
  · simp [do_stage_logic, h]
  · simp [do_stage_logic, h, tableGet_tablePut_self]

/-- Witness for C9 at the workflow's own `UPDATE_TOKEN` action. -/
theorem c9_witness :
    (("UPDATE_TOKEN" : String) ≠ "RECON")
    ∧ ((do_stage_logic "out-bucket" { jobId := some "j1" } "UPDATE_TOKEN" "f" true []).2.1 =
        some { trainingJobName := "train-job-" ++ ((some "j1").getD "f"),
               image := ecrUriFor ((none : Option String).getD "nerfstudio"),
               inputS3Uri := "s3://" ++ reconBucketName ++ "/recon-outputs/" ++
                 (((some "j1").getD "f") ++ "-RECON-output"),
               outputS3Uri := "s3://" ++ "out-bucket" ++ "/models/" }
      ∧ tableGet (do_stage_logic "out-bucket" { jobId := some "j1" } "UPDATE_TOKEN" "f" true []).1
          ((some "j1").getD "f") =
        some { stage := some "UPDATE_TOKEN", status := some "IN_PROGRESS",
               sageMakerJobName := some ("train-job-" ++ ((some "j1").getD "f")),
               outputBucket := some ("s3://" ++ "out-bucket" ++ "/models/"),
               taskToken := none }) :=
  ⟨by decide,
   c9_nonrecon_action_treated_as_train "out-bucket" { jobId := some "j1" }
     "UPDATE_TOKEN" "f" [] (by decide)⟩

/-- C10: a stage-dispatch event whose input payload has no `jobId` is
not rejected: `do_stage_logic` substitutes the fresh uuid, launches the
stage, writes a record under that fresh id and reports it in the 200
response. -/
theorem c10_missing_jobid_uses_fresh_uuid (outBucket action freshId : String)
    (table : Table) (p : StagePayload) (h : p.jobId = none) :
    ((do_stage_logic outBucket p action freshId true table).2.2).respJobId = some freshId
    ∧ ((do_stage_logic outBucket p action freshId true table).2.1).isSome = true
    ∧ (tableGet (do_stage_logic outBucket p action freshId true table).1 freshId).isSome
        = true := by
  by_cases ha : action = "RECON" <;>
    simp [do_stage_logic, h, ha, tableGet_tablePut_self, StageOutcome.respJobId]

/-- Witness for C10 at an empty payload. -/
theorem c10_witness :
    (({ } : StagePayload).jobId = none)
    ∧ (((do_stage_logic "out-bucket" { } "RECON" "fresh-uuid" true []).2.2).respJobId =
        some "fresh-uuid"
      ∧ ((do_stage_logic "out-bucket" { } "RECON" "fresh-uuid" true []).2.1).isSome = true
      ∧ (tableGet (do_stage_logic "out-bucket" { } "RECON" "fresh-uuid" true []).1
          "fresh-uuid").isSome = true) :=
  ⟨rfl, c10_missing_jobid_uses_fresh_uuid "out-bucket" "RECON" "fresh-uuid" [] { } rfl⟩

/-- A successful stop run: with a truthy `jobId` whose item carries a
truthy `sageMakerJobName`, and `stop_training_job` succeeding, the
handler issues the stop and rewrites just the status to `"STOPPING"`. -/
theorem stop_job_logic_success (table : Table) (j n : String) (item : JobItem)
    (hget : tableGet table j = some item) (hn : item.sageMakerJobName = some n)
    (hne : n ≠ "") (hj : j ≠ "") :
    stop_job_logic (some j) true table =
      (tablePut table j { item with status := some "STOPPING" }, [n],
       StopResult.stopping) := by
  simp [stop_job_logic, pyTruthy, hj, hget, hn, hne]

/-- A failed stop run: the handler issues the stop, the exception is
returned as a 500, and the table is left untouched. -/
theorem stop_job_logic_failure (table : Table) (j n : String) (item : JobItem)
    (hget : tableGet table j = some item) (hn : item.sageMakerJobName = some n)
    (hne : n ≠ "") (hj : j ≠ "") :
    stop_job_logic (some j) false table =
      (table, [n], StopResult.stopFailed "StopError") := by
  simp [stop_job_logic, pyTruthy, hj, hget, hn, hne]

/-- The stage handler always writes `stageWrittenItem` under the job id
it used, whatever the prior table contents. -/
theorem tableGet_do_stage (outBucket : String) (p : StagePayload)
    (action freshId : String) (table : Table) :
    tableGet (do_stage_logic outBucket p action freshId true table).1
        (p.jobId.getD freshId) =
      some (stageWrittenItem outBucket p action freshId) := by
  by_cases h : action = "RECON" <;>
    simp [do_stage_logic, stageWrittenItem, h, tableGet_tablePut_self]

/-- C3: the claim says the Train launch's input equals the `outputRef`
written by the Recon completion event ("r1" in the spec's scenario).
At the concrete input the Train launch reads
`s3://gabe-recon-renderingpipeline-bucket/recon-outputs/j1-RECON-output`
— a location the handler computes itself from a naming pattern — which
is not "r1", and the launch is identical whether or not the table holds
any stored reference. -/
theorem c3_counterexample_train_input_is_computed :
    (do_stage_logic "out-bucket" { jobId := some "j1" } "TRAIN" "f" true
        [("j1", { outputBucket := some "r1" })]).2.1 =
      some { trainingJobName := "train-job-j1", image := ecrUriFor "nerfstudio",
             inputS3Uri :=
               "s3://gabe-recon-renderingpipeline-bucket/recon-outputs/j1-RECON-output",
             outputS3Uri := "s3://out-bucket/models/" }
    ∧ ("s3://gabe-recon-renderingpipeline-bucket/recon-outputs/j1-RECON-output" : String)
        ≠ "r1"
    ∧ (do_stage_logic "out-bucket" { jobId := some "j1" } "TRAIN" "f" true
        [("j1", { outputBucket := some "r1" })]).2.1 =
      (do_stage_logic "out-bucket" { jobId := some "j1" } "TRAIN" "f" true []).2.1 := by
  decide

/-- C3 (amended): the Train launch's input location is computed by the
handler itself as `s3://{reconBucket}/recon-outputs/{jobId}-RECON-output`;
it does not depend on the stored record at all (the completion callback
carries only `status` and `jobId`, no `outputRef`). -/
theorem c3_amended_train_input_pattern (outBucket : String) (p : StagePayload)
    (action freshId : String) (t1 t2 : Table) (h : action ≠ "RECON") :
    (do_stage_logic outBucket p action freshId true t1).2.1 =
      some { trainingJobName := "train-job-" ++ (p.jobId.getD freshId),
             image := ecrUriFor (p.containerName.getD "nerfstudio"),
             inputS3Uri := "s3://" ++ reconBucketName ++ "/recon-outputs/" ++
               ((p.jobId.getD freshId) ++ "-RECON-output"),
             outputS3Uri := "s3://" ++ outBucket ++ "/models/" }
    ∧ (do_stage_logic outBucket p action freshId true t1).2.1 =
        (do_stage_logic outBucket p action freshId true t2).2.1 := by
  refine ⟨?_, ?_⟩ <;> simp [do_stage_logic, h]

/-- Witness for the amended C3 at the `TRAIN` action. -/
theorem c3_amended_witness :
    (("TRAIN" : String) ≠ "RECON")
    ∧ ((do_stage_logic "out-bucket" { jobId := some "j1" } "TRAIN" "f" true
          [("j1", reconRunningItem)]).2.1 =
        some { trainingJobName := "train-job-" ++ ((some "j1").getD "f"),
               image := ecrUriFor ((none : Option String).getD "nerfstudio"),
               inputS3Uri := "s3://" ++ reconBucketName ++ "/recon-outputs/" ++
                 (((some "j1").getD "f") ++ "-RECON-output"),
               outputS3Uri := "s3://" ++ "out-bucket" ++ "/models/" }
      ∧ (do_stage_logic "out-bucket" { jobId := some "j1" } "TRAIN" "f" true
           [("j1", reconRunningItem)]).2.1 =
        (do_stage_logic "out-bucket" { jobId := some "j1" } "TRAIN" "f" true []).2.1) :=
  ⟨by decide,
   c3_amended_train_input_pattern "out-bucket" { jobId := some "j1" } "TRAIN" "f"
     [("j1", reconRunningItem)] [] (by decide)⟩

/-- C4: the claim says every status-changing write is conditioned on the
expected prior version/status.  At the concrete inputs the stage
handler's `put_item` succeeds and writes the very same record against
two different prior records (one mid-stop, one completed), replacing
them outright, and the stop handler's `update_item` likewise succeeds
against both priors — no write is conditioned on anything, and no
version attribute exists. -/
theorem c4_counterexample_no_conditional_writes :
    tableGet (do_stage_logic "out-bucket" { jobId := some "j1" } "RECON" "f" true
        [("j1", stoppingPriorItem)]).1 "j1" =
      tableGet (do_stage_logic "out-bucket" { jobId := some "j1" } "RECON" "f" true
        [("j1", completedPriorItem)]).1 "j1"
    ∧ stoppingPriorItem ≠ completedPriorItem
    ∧ tableGet (do_stage_logic "out-bucket" { jobId := some "j1" } "RECON" "f" true
        [("j1", stoppingPriorItem)]).1 "j1" ≠ some stoppingPriorItem
    ∧ (stop_job_logic (some "j1") true [("j1", stoppingPriorItem)]).2.2 =
        StopResult.stopping
    ∧ (stop_job_logic (some "j1") true [("j1", completedPriorItem)]).2.2 =
        StopResult.stopping := by
  decide

/-- C4 (amended): all record writes are blind.  The stage handler's
`put_item` stores `stageWrittenItem` whatever the prior table was, and
the stop handler's `update_item` rewrites the status to `"STOPPING"` with
no condition on the prior record; no `version` attribute is kept. -/
theorem c4_amended_blind_overwrites (outBucket : String) (p : StagePayload)
    (action freshId : String) (t1 t2 : Table) (j n : String) (item : JobItem)
    (hget : tableGet t1 j = some item) (hn : item.sageMakerJobName = some n)
    (hne : n ≠ "") (hj : j ≠ "") :
    tableGet (do_stage_logic outBucket p action freshId true t1).1 (p.jobId.getD freshId)
      = tableGet (do_stage_logic outBucket p action freshId true t2).1
          (p.jobId.getD freshId)
    ∧ (stop_job_logic (some j) true t1).2.2 = StopResult.stopping
    ∧ tableGet (stop_job_logic (some j) true t1).1 j =
        some { item with status := some "STOPPING" } := by
  refine ⟨?_, ?_, ?_⟩
  · rw [tableGet_do_stage, tableGet_do_stage]
  · rw [stop_job_logic_success t1 j n item hget hn hne hj]
  · rw [stop_job_logic_success t1 j n item hget hn hne hj]
    exact tableGet_tablePut_self t1 j _

/-- Witness for the amended C4 at a concrete mid-stop prior record. -/
theorem c4_amended_witness :
    (tableGet [("j1", stoppingPriorItem)] "j1" = some stoppingPriorItem
     ∧ stoppingPriorItem.sageMakerJobName = some "recon-job-j1"
     ∧ ("recon-job-j1" : String) ≠ "" ∧ ("j1" : String) ≠ "")
    ∧ (tableGet (do_stage_logic "out-bucket" { jobId := some "j1" } "RECON" "f" true
          [("j1", stoppingPriorItem)]).1 ((some "j1").getD "f")
        = tableGet (do_stage_logic "out-bucket" { jobId := some "j1" } "RECON" "f" true
            []).1 ((some "j1").getD "f")
      ∧ (stop_job_logic (some "j1") true [("j1", stoppingPriorItem)]).2.2 =
          StopResult.stopping
      ∧ tableGet (stop_job_logic (some "j1") true [("j1", stoppingPriorItem)]).1 "j1" =
          some { stoppingPriorItem with status := some "STOPPING" }) :=
  ⟨⟨by decide, by decide, by decide, by decide⟩,
   c4_amended_blind_overwrites "out-bucket" { jobId := some "j1" } "RECON" "f"
     [("j1", stoppingPriorItem)] [] "j1" "recon-job-j1" stoppingPriorItem
     (by decide) (by decide) (by decide) (by decide)⟩

/-- C5: the claim says terminal statuses are sticky and any operation on
a terminal record is a no-op that reports the existing state.  At the
concrete input, `stop_job_logic` on a record whose status is the
terminal "STOPPED" issues a fresh SageMaker stop and rewrites the status
to "STOPPING" — the terminal record is mutated, not reported. -/
theorem c5_counterexample_terminal_mutated :
    stoppedTerminalItem.status = some "STOPPED"
    ∧ (stop_job_logic (some "j1") true [("j1", stoppedTerminalItem)]).2.2 =
        StopResult.stopping
    ∧ (stop_job_logic (some "j1") true [("j1", stoppedTerminalItem)]).2.1 =
        ["train-job-j1"]
    ∧ tableGet (stop_job_logic (some "j1") true [("j1", stoppedTerminalItem)]).1 "j1" =
        some { stoppedTerminalItem with status := some "STOPPING" } := by
  decide

/-- C5 (amended): no operation checks for a terminal status.  On any
record whose status is STOPPED, COMPLETED or FAILED (and whose
`sageMakerJobName` is set), `stop_job_logic` still issues the executor
stop and rewrites the status to "STOPPING", changing the record. -/
theorem c5_amended_terminal_not_sticky (table : Table) (j n : String) (item : JobItem)
    (hget : tableGet table j = some item)
    (hterm : item.status = some "STOPPED" ∨ item.status = some "COMPLETED"
              ∨ item.status = some "FAILED")
    (hn : item.sageMakerJobName = some n) (hne : n ≠ "") (hj : j ≠ "") :
    (stop_job_logic (some j) true table).2.2 = StopResult.stopping
    ∧ (stop_job_logic (some j) true table).2.1 = [n]
    ∧ tableGet (stop_job_logic (some j) true table).1 j =
        some { item with status := some "STOPPING" }
    ∧ ({ item with status := some "STOPPING" } : JobItem) ≠ item := by
  have h1 := stop_job_logic_success table j n item hget hn hne hj
  refine ⟨by rw [h1], by rw [h1], ?_, ?_⟩
  · rw [h1]; exact tableGet_tablePut_self table j _
  · intro heq
    have hst := congrArg JobItem.status heq
    simp only [] at hst
    rcases hterm with hc | hc | hc <;> rw [hc] at hst <;> exact absurd hst (by decide)

/-- Witness for the amended C5 at a concrete STOPPED record. -/
theorem c5_amended_witness :
    (tableGet [("j1", stoppedTerminalItem)] "j1" = some stoppedTerminalItem
     ∧ (stoppedTerminalItem.status = some "STOPPED"
        ∨ stoppedTerminalItem.status = some "COMPLETED"
        ∨ stoppedTerminalItem.status = some "FAILED")
     ∧ stoppedTerminalItem.sageMakerJobName = some "train-job-j1"
     ∧ ("train-job-j1" : String) ≠ "" ∧ ("j1" : String) ≠ "")
    ∧ ((stop_job_logic (some "j1") true [("j1", stoppedTerminalItem)]).2.2 =
        StopResult.stopping
      ∧ (stop_job_logic (some "j1") true [("j1", stoppedTerminalItem)]).2.1 =
          ["train-job-j1"]
      ∧ tableGet (stop_job_logic (some "j1") true [("j1", stoppedTerminalItem)]).1 "j1" =
          some { stoppedTerminalItem with status := some "STOPPING" }
      ∧ ({ stoppedTerminalItem with status := some "STOPPING" } : JobItem)
          ≠ stoppedTerminalItem) :=
  ⟨⟨by decide, Or.inl (by decide), by decide, by decide, by decide⟩,
   c5_amended_terminal_not_sticky [("j1", stoppedTerminalItem)] "j1" "train-job-j1"
     stoppedTerminalItem (by decide) (Or.inl (by decide)) (by decide) (by decide)
     (by decide)⟩

/-- C6: the claim says a continuation token is present iff the status is
`AWAITING_CALLBACK`, and that every operation preserves this.  At the
concrete input the biconditional holds before the stop, yet after
`stop_job_logic` the token is still stored while the status is
"STOPPING" — the operation broke the biconditional (the stop never
clears `taskToken`). -/
theorem c6_counterexample_stop_breaks_biconditional :
    tokenIffAwaitingCallback awaitingCallbackItem = true
    ∧ tableGet (stop_job_logic (some "j1") true [("j1", awaitingCallbackItem)]).1 "j1" =
        some { awaitingCallbackItem with status := some "STOPPING" }
    ∧ tokenIffAwaitingCallback { awaitingCallbackItem with status := some "STOPPING" }
        = false := by
  decide

/-- C6 (amended): the biconditional is not preserved by the code's
operations: `stop_job_logic` rewrites the status while leaving
`taskToken` untouched, so any record that satisfied the biconditional
with a stored token violates it right after a successful stop. -/
theorem c6_amended_token_outlives_status (table : Table) (j t n : String)
    (item : JobItem) (hget : tableGet table j = some item)
    (hn : item.sageMakerJobName = some n) (hne : n ≠ "") (hj : j ≠ "")
    (htok : item.taskToken = some t) (ht : t ≠ "")
    (hstat : item.status = some "AWAITING_CALLBACK") :
    tokenIffAwaitingCallback item = true
    ∧ tableGet (stop_job_logic (some j) true table).1 j =
        some { item with status := some "STOPPING" }
    ∧ tokenIffAwaitingCallback { item with status := some "STOPPING" } = false := by
  have h1 := stop_job_logic_success table j n item hget hn hne hj
  refine ⟨?_, ?_, ?_⟩
  · simp [tokenIffAwaitingCallback, pyTruthy, htok, ht, hstat]
  · rw [h1]; exact tableGet_tablePut_self table j _
  · simp [tokenIffAwaitingCallback, pyTruthy, htok, ht]

/-- Witness for the amended C6 at a concrete awaiting-callback record. -/
theorem c6_amended_witness :
    (tableGet [("j1", awaitingCallbackItem)] "j1" = some awaitingCallbackItem
     ∧ awaitingCallbackItem.sageMakerJobName = some "recon-job-j1"
     ∧ ("recon-job-j1" : String) ≠ "" ∧ ("j1" : String) ≠ ""
     ∧ awaitingCallbackItem.taskToken = some "tok1" ∧ ("tok1" : String) ≠ ""
     ∧ awaitingCallbackItem.status = some "AWAITING_CALLBACK")
    ∧ (tokenIffAwaitingCallback awaitingCallbackItem = true
      ∧ tableGet (stop_job_logic (some "j1") true [("j1", awaitingCallbackItem)]).1 "j1" =
          some { awaitingCallbackItem with status := some "STOPPING" }
      ∧ tokenIffAwaitingCallback { awaitingCallbackItem with status := some "STOPPING" }
          = false) :=
  ⟨⟨by decide, by decide, by decide, by decide, by decide, by decide, by decide⟩,
   c6_amended_token_outlives_status [("j1", awaitingCallbackItem)] "j1" "tok1"
     "recon-job-j1" awaitingCallbackItem (by decide) (by decide) (by decide)
     (by decide) (by decide) (by decide) (by decide)⟩

/-- C8: the claim says that when the Stage Executor cannot confirm
cancellation the job still transitions to STOPPED and the failure is
only logged.  At the concrete input, `stop_job_logic` with a failing
`stop_training_job` returns the 500 error to the caller and leaves the
table untouched: the status stays "IN_PROGRESS" and never becomes
STOPPED. -/
theorem c8_counterexample_stop_error_blocks :
    stop_job_logic (some "j1") false [("j1", reconRunningItem)] =
      ([("j1", reconRunningItem)], ["recon-job-j1"], StopResult.stopFailed "StopError")
    ∧ reconRunningItem.status = some "IN_PROGRESS" := by
  decide

/-- C8 (amended): a `StopError` is surfaced to the caller as a blocking
500 and the record's status is not updated at all; even when the stop
succeeds, the status written is "STOPPING", never "STOPPED". -/
theorem c8_amended_stop_error_surfaced (table : Table) (j n : String) (item : JobItem)
    (hget : tableGet table j = some item) (hn : item.sageMakerJobName = some n)
    (hne : n ≠ "") (hj : j ≠ "") :
    stop_job_logic (some j) false table = (table, [n], StopResult.stopFailed "StopError")
    ∧ (stop_job_logic (some j) true table).2.2 = StopResult.stopping
    ∧ tableGet (stop_job_logic (some j) true table).1 j =
        some { item with status := some "STOPPING" } := by
  have h1 := stop_job_logic_success table j n item hget hn hne hj
  refine ⟨stop_job_logic_failure table j n item hget hn hne hj, by rw [h1], ?_⟩
  rw [h1]; exact tableGet_tablePut_self table j _

/-- Witness for the amended C8 at a concrete running record. -/
theorem c8_amended_witness :
    (tableGet [("j1", reconRunningItem)] "j1" = some reconRunningItem
     ∧ reconRunningItem.sageMakerJobName = some "recon-job-j1"
     ∧ ("recon-job-j1" : String) ≠ "" ∧ ("j1" : String) ≠ "")
    ∧ (stop_job_logic (some "j1") false [("j1", reconRunningItem)] =
        ([("j1", reconRunningItem)], ["recon-job-j1"], StopResult.stopFailed "StopError")
      ∧ (stop_job_logic (some "j1") true [("j1", reconRunningItem)]).2.2 =
          StopResult.stopping
      ∧ tableGet (stop_job_logic (some "j1") true [("j1", reconRunningItem)]).1 "j1" =
          some { reconRunningItem with status := some "STOPPING" }) :=
  ⟨⟨by decide, by decide, by decide, by decide⟩,
   c8_amended_stop_error_surfaced [("j1", reconRunningItem)] "j1" "recon-job-j1"
     reconRunningItem (by decide) (by decide) (by decide) (by decide)⟩

/-- Evaluation of the stop-then-resume race trace: the stop commits
first (rewriting the status to "STOPPING" but leaving `taskToken`), the
external completion write then sets "COMPLETED_RECON", and the stream
delivery consumes the still-pending token — the workflow proceeds to the
Train stage. -/
theorem stopThenResumeTrace_eq (table : Table) (j t n : String) (item : JobItem)
    (sf : SFState) (hget : tableGet table j = some item)
    (hn : item.sageMakerJobName = some n) (hne : n ≠ "") (hj : j ≠ "")
    (htok : item.taskToken = some t) (ht : t ≠ "") (hp : t ∈ sf.pending) :
    stopThenResumeTrace table j sf =
      (tablePut (tablePut table j { item with status := some "STOPPING" }) j
         { item with status := some "COMPLETED_RECON" },
       { pending := sf.pending.erase t, resumed := sf.resumed ++ [t] }) := by
  have h1 := stop_job_logic_success table j n item hget hn hne hj
  simp only [stopThenResumeTrace, h1, externalCompletionWrite, tableGet_tablePut_self,
    imageOfItem, processRecord, resumeGuard, pyTruthy, htok, send_task_success]
  simp [hp, ht]

/-- C1: the claim says a committed stop invalidates the stored token, so
the final outcome is exactly one of {job STOPPED, Train launched}.  At
the concrete input the stop commits first and succeeds, yet the stored
token survives the stop write, the status written is "STOPPING" (never
"STOPPED"), and the later completion event still consumes the token and
moves the workflow into the Train stage — both outcomes occur. -/
theorem c1_counterexample_stop_then_train_both :
    (stop_job_logic (some "j1") true [("j1", reconRunningItem)]).2.2 =
      StopResult.stopping
    ∧ ((tableGet (stop_job_logic (some "j1") true [("j1", reconRunningItem)]).1
          "j1").bind JobItem.taskToken) = some "tok1"
    ∧ (stopThenResumeTrace [("j1", reconRunningItem)] "j1"
        { pending := ["tok1"], resumed := [] }).2.resumed = ["tok1"]
    ∧ ((tableGet (stopThenResumeTrace [("j1", reconRunningItem)] "j1"
          { pending := ["tok1"], resumed := [] }).1 "j1").bind JobItem.status)
        ≠ some "STOPPED" := by
  decide

/-- C1 (amended): `stop_job_logic` performs no conditional update and
does not invalidate the stored continuation token: it unconditionally
rewrites the status to "STOPPING" (never "STOPPED"), leaving `taskToken`
intact, so a stop that commits first does not make the racing resume a
no-op — a subsequent completion event still consumes the token and the
workflow proceeds to launch the Train stage, yielding both outcomes. -/
theorem c1_amended_stop_does_not_invalidate (table : Table) (j t n : String)
    (item : JobItem) (sf : SFState) (hget : tableGet table j = some item)
    (hn : item.sageMakerJobName = some n) (hne : n ≠ "") (hj : j ≠ "")
    (htok : item.taskToken = some t) (ht : t ≠ "") (hp : t ∈ sf.pending) :
    (stop_job_logic (some j) true table).2.2 = StopResult.stopping
    ∧ ((tableGet (stop_job_logic (some j) true table).1 j).bind JobItem.taskToken)
        = some t
    ∧ ((tableGet (stop_job_logic (some j) true table).1 j).bind JobItem.status)
        = some "STOPPING"
    ∧ t ∈ (stopThenResumeTrace table j sf).2.resumed := by
  have h1 := stop_job_logic_success table j n item hget hn hne hj
  have h2 := stopThenResumeTrace_eq table j t n item sf hget hn hne hj htok ht hp
  refine ⟨by rw [h1], ?_, ?_, ?_⟩
  · rw [h1]; simp [tableGet_tablePut_self, htok]
  · rw [h1]; simp [tableGet_tablePut_self]
  · rw [h2]; simp

/-- Witness for the amended C1 at the concrete racing job. -/
theorem c1_amended_witness :
    (tableGet [("j1", reconRunningItem)] "j1" = some reconRunningItem
     ∧ reconRunningItem.sageMakerJobName = some "recon-job-j1"
     ∧ ("recon-job-j1" : String) ≠ "" ∧ ("j1" : String) ≠ ""
     ∧ reconRunningItem.taskToken = some "tok1" ∧ ("tok1" : String) ≠ ""
     ∧ "tok1" ∈ ({ pending := ["tok1"], resumed := [] } : SFState).pending)
    ∧ ((stop_job_logic (some "j1") true [("j1", reconRunningItem)]).2.2 =
        StopResult.stopping
      ∧ ((tableGet (stop_job_logic (some "j1") true [("j1", reconRunningItem)]).1
            "j1").bind JobItem.taskToken) = some "tok1"
      ∧ ((tableGet (stop_job_logic (some "j1") true [("j1", reconRunningItem)]).1
            "j1").bind JobItem.status) = some "STOPPING"
      ∧ "tok1" ∈ (stopThenResumeTrace [("j1", reconRunningItem)] "j1"
          { pending := ["tok1"], resumed := [] }).2.resumed) :=
  ⟨⟨by decide, by decide, by decide, by decide, by decide, by decide, by decide⟩,
   c1_amended_stop_does_not_invalidate [("j1", reconRunningItem)] "j1" "tok1"
     "recon-job-j1" reconRunningItem { pending := ["tok1"], resumed := [] }
     (by decide) (by decide) (by decide) (by decide) (by decide) (by decide)
     (by decide)⟩

/-- Consuming a pending token preserves well-formedness of the
task-token state. -/
theorem wfsf_send (sf : SFState) (t : String) (hw : WFSF sf) (hp : t ∈ sf.pending) :
    WFSF ⟨sf.pending.erase t, sf.resumed ++ [t]⟩ := by
  obtain ⟨h1, h2, h3⟩ := hw
  refine ⟨List.Nodup.erase t h1, ?_, ?_⟩
  · refine List.Nodup.append h2 (List.nodup_singleton t) ?_
    intro a ha hb
    rw [List.mem_singleton] at hb
    subst hb
    exact h3 a hp ha
  · intro u hu
    have hu' : u ≠ t ∧ u ∈ sf.pending := (List.Nodup.mem_erase_iff h1).mp hu
    rw [List.mem_append, List.mem_singleton]
    push_neg
    exact ⟨h3 u hu'.2, hu'.1⟩

/-- Processing any stream record preserves well-formedness. -/
theorem wfsf_processRecord (sf : SFState) (r : StreamRecord) (hw : WFSF sf) :
    WFSF (processRecord sf r) := by
  unfold processRecord
  split
  · cases htok : r.newImage.taskToken with
    | none => exact hw
    | some t =>
        by_cases hp : t ∈ sf.pending
        · simpa [send_task_success, hp] using wfsf_send sf t hw hp
        · simpa [send_task_success, hp] using hw
  · exact hw

/-- The whole stream batch preserves well-formedness. -/
theorem wfsf_logsStreamHandler (sf : SFState) (rs : List StreamRecord)
    (hw : WFSF sf) : WFSF (logsStreamHandler sf rs) := by
  induction rs generalizing sf with
  | nil => exact hw
  | cons r rest ih =>
      simp only [logsStreamHandler, List.foldl_cons]
      exact ih (processRecord sf r) (wfsf_processRecord sf r hw)

/-- A stream record whose token is absent from the pending set (already
consumed, or never registered) leaves the state untouched: the caught
`send_task_success` failure makes the delivery a no-op. -/
theorem processRecord_not_pending (sf : SFState) (r : StreamRecord) (t : String)
    (htok : r.newImage.taskToken = some t) (hp : t ∉ sf.pending) :
    processRecord sf r = sf := by
  unfold processRecord
  split
  · simp [htok, send_task_success, hp]
  · rfl

/-- C2: starting from a well-formed token state, however many times the
stream redelivers completion events — including the very same token two
or more times — each token is consumed at most once, so the workflow
proceeds into the Train stage at most once per token; and a delivery
whose token is already consumed or unknown is a no-op that launches
nothing. -/
theorem c2_resume_launches_train_at_most_once (sf : SFState)
    (rs : List StreamRecord) (t u : String) (r : StreamRecord) (hw : WFSF sf)
    (htok : r.newImage.taskToken = some u) (hu : u ∉ sf.pending) :
    (logsStreamHandler sf rs).resumed.count t ≤ 1
    ∧ processRecord sf r = sf := by
  refine ⟨?_, processRecord_not_pending sf r u htok hu⟩
  have h := wfsf_logsStreamHandler sf rs hw
  exact List.nodup_iff_count_le_one.mp h.2.1 t

/-- Witness for C2: a duplicated delivery of the pending token "tokA"
resumes at most once, and a delivery of the unknown token "tokB" is a
no-op. -/
theorem c2_witness :
    (WFSF { pending := ["tokA"], resumed := [] }
     ∧ (reconDoneRecord "tokB").newImage.taskToken = some "tokB"
     ∧ "tokB" ∉ ({ pending := ["tokA"], resumed := [] } : SFState).pending)
    ∧ ((logsStreamHandler { pending := ["tokA"], resumed := [] }
          [reconDoneRecord "tokA", reconDoneRecord "tokA"]).resumed.count "tokA" ≤ 1
      ∧ processRecord { pending := ["tokA"], resumed := [] } (reconDoneRecord "tokB")
          = { pending := ["tokA"], resumed := [] }) :=
  ⟨⟨by decide, rfl, by decide⟩,
   c2_resume_launches_train_at_most_once { pending := ["tokA"], resumed := [] }
     [reconDoneRecord "tokA", reconDoneRecord "tokA"] "tokA" "tokB"
     (reconDoneRecord "tokB") (by decide) rfl (by decide)⟩

end RenderingPipeline
